import Mathlib

/-!
Verification of the router5 Cycle driver (`src/apps/cycle/router5/driver.js`).

The driver bridges a router5 instance with Rx observables: it registers a
plugin pushing every router lifecycle event into a unified cold observable
`transition$`, derives filtered/stateful streams from it, and consumes a
stream of sink commands that it normalises and dispatches to the router.

Modelling choices (shallow embedding of Rx):
* An observable is modelled by `Obs`: the list of side effects its
  `Observable.create` callback performs at each subscription, together with
  a function from the router lifecycle events delivered after that
  subscription to the list of values the subscriber receives.  `map`,
  `filter` and `startWith` preserve the subscription effects (each
  subscription of a derived observable subscribes its source once);
  `transition$` is cold and unshared, so its create callback runs per
  subscription.
* The error payload of a `transitionError` notification is caller-defined;
  it is represented by `ErrorPayload := String`.
* JavaScript values flowing through the sink are modelled by `JsVal`:
  strings, arrays, and `JsVal.other` for every value that is neither
  (numbers, objects, `null`, `undefined`, ...).
-/

namespace Router5Driver

/-- A router state: hierarchical node `name` plus route parameters. -/
structure RouterState where
  name : String
  params : List (String × String)
deriving DecidableEq, Repr

/-- Error payload attached by the router to a transition error. -/
abbrev ErrorPayload := String

/-- A lifecycle notification delivered by the router to a registered plugin:
`onStart`, `onStop`, `onTransitionStart(toState, fromState)`,
`onTransitionSuccess(toState, fromState)`,
`onTransitionError(toState, fromState, error)`,
`onTransitionCancel(toState, fromState)`. -/
inductive RouterEvent where
  | start : RouterEvent
  | stop : RouterEvent
  | transitionStart (toState fromState : Option RouterState) : RouterEvent
  | transitionSuccess (toState fromState : Option RouterState) : RouterEvent
  | transitionError (toState fromState : Option RouterState) (error : ErrorPayload) : RouterEvent
  | transitionCancel (toState fromState : Option RouterState) : RouterEvent
deriving DecidableEq, Repr

/-- The object pushed to the observer for one router event (driver.js
lines 37-41): `{ type, toState, fromState }`, plus `error` for the error
variant; `push` (start/stop) emits `{ type }` only, whose state fields are
never read downstream, so they are uniformly modelled as `none`. -/
structure RouterEvt where
  type : String
  toState : Option RouterState
  fromState : Option RouterState
  error : Option ErrorPayload
deriving DecidableEq, Repr

/-- The `cyclePlugin` handlers (driver.js lines 44-52): how one router
lifecycle notification is tagged and pushed to the observer. -/
def pluginEvent : RouterEvent → RouterEvt
  | .start => ⟨"start", none, none, none⟩
  | .stop => ⟨"stop", none, none, none⟩
  | .transitionStart t f => ⟨"transitionStart", t, f, none⟩
  | .transitionSuccess t f => ⟨"transitionSuccess", t, f, none⟩
  | .transitionError t f e => ⟨"transitionError", t, f, some e⟩
  | .transitionCancel t f => ⟨"transitionCancel", t, f, none⟩

/-- A side effect performed on the router when an observable derived from
`transition$` is subscribed (driver.js lines 54-58). -/
inductive DriverEffect where
  | usePlugin (name : String) : DriverEffect
  | startRouter : DriverEffect
deriving DecidableEq, Repr

/-- The effects of the `Observable.create` callback (driver.js lines 54-58):
register the plugin named CYCLE_DRIVER, then `router.start()` when the
router is not started and `autostart` holds. -/
def subscribeEffects (started autostart : Bool) : List DriverEffect :=
  [DriverEffect.usePlugin "CYCLE_DRIVER"]
    ++ (if !started && autostart then [DriverEffect.startRouter] else [])

/-- An Rx observable, shallowly embedded: `subEffects` are the side effects
performed on the router at each subscription, and `run evts` is the list of
values a subscriber receives when the router delivers the lifecycle events
`evts` after that subscription. -/
structure Obs (α : Type) where
  subEffects : List DriverEffect
  run : List RouterEvent → List α

/-- Rx `map`: transforms each emitted value; subscribes its source once. -/
def Obs.map {α β : Type} (o : Obs α) (f : α → β) : Obs β :=
  ⟨o.subEffects, fun evts => (o.run evts).map f⟩

/-- Rx `filter`: keeps the emitted values satisfying the predicate. -/
def Obs.filter {α : Type} (o : Obs α) (p : α → Bool) : Obs α :=
  ⟨o.subEffects, fun evts => (o.run evts).filter p⟩

/-- Rx `startWith`: prepends a value, already evaluated when the operator
was applied, to each subscriber. -/
def Obs.startWith {α : Type} (o : Obs α) (x : α) : Obs α :=
  ⟨o.subEffects, fun evts => x :: o.run evts⟩

/-- The unified event observable `transition$` (driver.js lines 36-59):
cold and unshared, each subscription registers the plugin (and possibly
starts the router) and then receives one pushed object per router event. -/
def transitionS (started autostart : Bool) : Obs RouterEvt :=
  ⟨subscribeEffects started autostart, fun evts => evts.map pluginEvent⟩

/-- The helper `filter` of driver.js line 61: events of one type tag. -/
def filterType (t : Obs RouterEvt) (type : String) : Obs RouterEvt :=
  t.filter (fun e => e.type == type)

/-- The helper `slice` (driver.js line 62): project to the bare type tag. -/
def slice (t : Obs RouterEvt) (type : String) : Obs String :=
  (filterType t type).map (fun e => e.type)

/-- The `{ toState, fromState }` projection emitted by `sliceSlate`. -/
structure Slate where
  toState : Option RouterState
  fromState : Option RouterState
deriving DecidableEq, Repr

/-- The helper `sliceSlate` (driver.js line 63): project a typed event to
`{ toState, fromState }`. -/
def sliceSlate (t : Obs RouterEvt) (type : String) : Obs Slate :=
  (filterType t type).map (fun e => ⟨e.toState, e.fromState⟩)

/-- One element of `routeState$`: the computed intersection and the
transition target (driver.js lines 85-90). -/
structure RouteState where
  intersection : Option String
  route : Option RouterState
deriving DecidableEq, Repr

/-- The `routeState$` observable (driver.js lines 85-90): successful
transitions with a non-null `toState`, paired with the intersection
computed by the external `transitionPath(toState, fromState)`. -/
def routeStateS (t : Obs RouterEvt)
    (tp : Option RouterState → Option RouterState → Option String) : Obs RouteState :=
  ((sliceSlate t "transitionSuccess").filter (fun s => s.toState.isSome)).map
    (fun s => RouteState.mk (tp s.toState s.fromState) s.toState)

/-- The bundle of observables the driver returns (driver.js lines 118-125),
minus the source API passthrough.  `$` is not a legal Lean identifier
character, so `x$` is written `xS`. -/
structure RouterDriverSources where
  startS : Obs String
  stopS : Obs String
  transitionStartS : Obs Slate
  transitionCancelS : Obs Slate
  transitionSuccessS : Obs Slate
  transitionErrorS : Obs Slate
  transitionRouteS : Obs (Option RouterState)
  errorS : Obs (Option ErrorPayload)
  routeS : Obs (Option RouterState)
  routeNodeS : String → Obs (Option RouterState)

/-- The observable side of `makeRouterDriver` (driver.js lines 34-102).
`started` is the `started` flag of the router and `getState` the value
`router.getState()` returns, both read when the driver is constructed;
`tp` is the external `router5.transition-path` function, returning the
`intersection` field of `transitionPath(toState, fromState)`. -/
def makeRouterDriver (started autostart : Bool) (getState : Option RouterState)
    (tp : Option RouterState → Option RouterState → Option String) :
    RouterDriverSources :=
  let t := transitionS started autostart
  let transitionRouteS :=
    (t.map (fun e => if e.type == "transitionStart" then e.toState else none)).startWith none
  let errorS :=
    (t.map (fun e => if e.type == "transitionError" then e.error else none)).startWith none
  let rs := routeStateS t tp
  let routeS := (rs.map (fun x => x.route)).startWith getState
  let routeNodeS := fun node =>
    ((((rs.filter (fun x => x.intersection == some node)).map
        (fun x => x.route)).startWith getState).filter (fun r => r.isSome))
  { startS := slice t "start"
    stopS := slice t "stop"
    transitionStartS := sliceSlate t "transitionStart"
    transitionCancelS := sliceSlate t "transitionCancel"
    transitionSuccessS := sliceSlate t "transitionSuccess"
    transitionErrorS := sliceSlate t "transitionError"
    transitionRouteS := transitionRouteS
    errorS := errorS
    routeS := routeS
    routeNodeS := routeNodeS }

/-- A JavaScript value arriving on the sink request stream: a string, an
array, or anything else (`JsVal.other`: numbers, plain objects, null,
undefined, ...). -/
inductive JsVal where
  | str (s : String) : JsVal
  | arr (elems : List JsVal) : JsVal
  | other : JsVal

/-- The source API method names (driver.js line 4). -/
def sourceMethods : List String :=
  ["getState", "buildUrl", "buildPath", "matchUrl", "matchPath",
   "areStatesDescendants", "isActive"]

/-- The sink method whitelist (driver.js line 5). -/
def sinkMethods : List String :=
  ["cancel", "start", "stop", "navigate", "canActivate", "canDeactivate"]

/-- The message of the Error thrown by `normaliseRequest` (driver.js
lines 19-22). -/
def sinkErrorMessage : String :=
  "A Router5 sink argument should be a string (method name) or" ++
    " an object which first element is a valid metod name, followed by its arguments." ++
    " Available sink methods are: " ++ String.intercalate "," sinkMethods ++ "."

/-- The pure part of `normaliseRequest` (driver.js lines 14-25): an array
or a string is normalised with `[].concat(req)` (an array is kept as is, a
string is wrapped into a one-element array), anything else becomes `[]`;
then `sinkMethods.indexOf(normReq[0]) === -1` throws — a head that is not
a string is `===`-equal to no whitelist entry.  The `console.log(req)` of
line 13 is modelled as the `consoleLog` effect in `processRequests`. -/
def normaliseRequest (req : JsVal) : Except String (List JsVal) :=
  let normReq : List JsVal :=
    match req with
    | .arr elems => elems
    | .str s => [JsVal.str s]
    | .other => []
  match normReq with
  | JsVal.str m :: _ =>
      if sinkMethods.contains m then Except.ok normReq else Except.error sinkErrorMessage
  | _ => Except.error sinkErrorMessage

/-- An observable effect of feeding the request stream to the driver sink:
the `console.log` in `normaliseRequest`, a dispatched
`router[method].apply(router, args)` call, or the `console.error` of the
error handler of the subscription. -/
inductive SinkEffect where
  | consoleLog (req : JsVal) : SinkEffect
  | call (method : JsVal) (args : List JsVal) : SinkEffect
  | consoleError (msg : String) : SinkEffect

/-- The sink subscription (driver.js lines 111-116):
`request$.map(normaliseRequest).subscribe(([method, ...args]) =>
router[method].apply(router, args), err => console.error(err))`.
When the `map` selector throws, Rx routes the error to the `onError`
handler and the subscription terminates: no later request is processed.
The `[method, ...args]` destructuring takes the head (undefined — modelled
`JsVal.other` — if the array is empty, which a successful normalisation
never produces) and the tail. -/
def processRequests : List JsVal → List SinkEffect
  | [] => []
  | req :: rest =>
    SinkEffect.consoleLog req ::
      match normaliseRequest req with
      | Except.ok normReq =>
          SinkEffect.call (normReq.headD JsVal.other) normReq.tail :: processRequests rest
      | Except.error msg => [SinkEffect.consoleError msg]

/-- Modelled from the spec: the external router (a collaborator outside
this repository, consumed as a black box) updates the state reported by
`getState` on each successful transition to the `toState` of that transition;
other lifecycle events leave it unchanged (spec section 3 data model and
the section 8 example). -/
def routerStateAfter (s : Option RouterState) : List RouterEvent → Option RouterState
  | [] => s
  | RouterEvent.transitionSuccess t _ :: rest => routerStateAfter t rest
  | _ :: rest => routerStateAfter s rest

/-- The resolved command name of a sink request: the string itself for a
bare string, the head for an array whose head is a string, nothing
otherwise.  Used to state the claims about the command vocabulary. -/
def resolvedName : JsVal → Option String
  | .str m => some m
  | .arr (JsVal.str m :: _) => some m
  | _ => none

/-- A command input that the spec calls invalid: not a string and not a
non-empty sequence, or with a resolved head name outside the sink
vocabulary. -/
def isInvalidCommand (req : JsVal) : Bool :=
  match resolvedName req with
  | some m => !sinkMethods.contains m
  | none => true

/-! ### Stream characterisation lemmas -/

/-- Running a filtered/projected pipeline over the pushed events is a
`filterMap` over the router events. -/
theorem filter_map_pluginEvent {α : Type} (p : RouterEvt → Bool) (proj : RouterEvt → α)
    (evts : List RouterEvent) :
    ((evts.map pluginEvent).filter p).map proj
      = evts.filterMap
          (fun e => if p (pluginEvent e) then some (proj (pluginEvent e)) else none) := by
  induction evts with
  | nil => rfl
  | cons e rest ih =>
      simp only [List.map_cons, List.filter_cons, List.filterMap_cons]
      cases h : p (pluginEvent e) <;> simp [h, ih]

/-- The values `routeState$` delivers: one `RouteState` per successful
transition with non-null `toState`. -/
theorem routeStateS_run (started autostart : Bool)
    (tp : Option RouterState → Option RouterState → Option String)
    (evts : List RouterEvent) :
    (routeStateS (transitionS started autostart) tp).run evts
      = evts.filterMap (fun e =>
          match e with
          | RouterEvent.transitionSuccess (some t) f =>
              some (RouteState.mk (tp (some t) f) (some t))
          | _ => none) := by
  simp only [routeStateS, sliceSlate, filterType, transitionS, Obs.map, Obs.filter]
  induction evts with
  | nil => rfl
  | cons e rest ih =>
      cases e with
      | start => simpa [pluginEvent] using ih
      | stop => simpa [pluginEvent] using ih
      | transitionStart t f => simpa [pluginEvent] using ih
      | transitionSuccess t f => cases t <;> simpa [pluginEvent] using ih
      | transitionError t f err => simpa [pluginEvent] using ih
      | transitionCancel t f => simpa [pluginEvent] using ih

/-! ### Claim theorems -/

/-- Claim C9: each subscription to the unified event stream registers
exactly one plugin (hook) with the router, and `router.start()` is invoked
at that subscription exactly when the router is not already started and
`autostart` is true. -/
theorem c9_subscription_registers_once (started autostart : Bool) :
    ((transitionS started autostart).subEffects).count
        (DriverEffect.usePlugin "CYCLE_DRIVER") = 1
    ∧ (DriverEffect.startRouter ∈ (transitionS started autostart).subEffects
        ↔ (started = false ∧ autostart = true)) := by
  cases started <;> cases autostart <;> decide

/-- Claim C10: every derived observable of the driver bundle carries the
same per-subscription side effects as the cold, unshared `transition$`:
each subscription registers another plugin, always named CYCLE_DRIVER
(exactly one registration per subscription), and starts the router again
when it is unstarted and `autostart` holds — the effects of one
subscription are not shared with another. -/
theorem c10_derived_streams_resubscribe (started autostart : Bool)
    (g : Option RouterState)
    (tp : Option RouterState → Option RouterState → Option String) (node : String) :
    (makeRouterDriver started autostart g tp).startS.subEffects
        = subscribeEffects started autostart
    ∧ (makeRouterDriver started autostart g tp).stopS.subEffects
        = subscribeEffects started autostart
    ∧ (makeRouterDriver started autostart g tp).transitionStartS.subEffects
        = subscribeEffects started autostart
    ∧ (makeRouterDriver started autostart g tp).transitionCancelS.subEffects
        = subscribeEffects started autostart
    ∧ (makeRouterDriver started autostart g tp).transitionSuccessS.subEffects
        = subscribeEffects started autostart
    ∧ (makeRouterDriver started autostart g tp).transitionErrorS.subEffects
        = subscribeEffects started autostart
    ∧ (makeRouterDriver started autostart g tp).transitionRouteS.subEffects
        = subscribeEffects started autostart
    ∧ (makeRouterDriver started autostart g tp).errorS.subEffects
        = subscribeEffects started autostart
    ∧ (makeRouterDriver started autostart g tp).routeS.subEffects
        = subscribeEffects started autostart
    ∧ ((makeRouterDriver started autostart g tp).routeNodeS node).subEffects
        = subscribeEffects started autostart
    ∧ (subscribeEffects started autostart).count
        (DriverEffect.usePlugin "CYCLE_DRIVER") = 1
    ∧ (DriverEffect.startRouter ∈ subscribeEffects started autostart
        ↔ (started = false ∧ autostart = true)) := by
  refine ⟨rfl, rfl, rfl, rfl, rfl, rfl, rfl, rfl, rfl, rfl, ?_, ?_⟩ <;>
    cases started <;> cases autostart <;> decide

/-- Claim C4: a command that is a bare whitelisted method name, or a
non-empty array headed by a whitelisted method name, is dispatched to the
identically named router method exactly once with its argument list in
order, with no diagnostic error, and processing continues with the rest of
the stream. -/
theorem c4_valid_command_dispatched (m : String) (args rest : List JsVal)
    (hm : m ∈ sinkMethods) :
    processRequests (JsVal.arr (JsVal.str m :: args) :: rest)
        = SinkEffect.consoleLog (JsVal.arr (JsVal.str m :: args))
            :: SinkEffect.call (JsVal.str m) args :: processRequests rest
    ∧ processRequests (JsVal.str m :: rest)
        = SinkEffect.consoleLog (JsVal.str m)
            :: SinkEffect.call (JsVal.str m) [] :: processRequests rest := by
  have hc : sinkMethods.contains m = true := List.elem_iff.mpr hm
  constructor <;> simp [processRequests, normaliseRequest, hc, hm]

/-- Witness for C4 at the concrete commands
`["navigate", "home"]` and `"navigate"`. -/
theorem c4_valid_command_dispatched_witness :
    processRequests [JsVal.arr [JsVal.str "navigate", JsVal.str "home"]]
        = SinkEffect.consoleLog (JsVal.arr [JsVal.str "navigate", JsVal.str "home"])
            :: SinkEffect.call (JsVal.str "navigate") [JsVal.str "home"]
            :: processRequests []
    ∧ processRequests [JsVal.str "navigate"]
        = SinkEffect.consoleLog (JsVal.str "navigate")
            :: SinkEffect.call (JsVal.str "navigate") [] :: processRequests [] :=
  c4_valid_command_dispatched "navigate" [JsVal.str "home"] [] (by decide)

/-- Claim C5: a command input that is not a string and not a non-empty
array, or whose resolved head name is outside the sink vocabulary, makes
`normaliseRequest` throw the diagnostic error: the subscription reports it
via `console.error` and no router method is invoked for that input. -/
theorem c5_invalid_command_rejected (req : JsVal) (rest : List JsVal)
    (h : isInvalidCommand req = true) :
    normaliseRequest req = Except.error sinkErrorMessage
    ∧ processRequests (req :: rest)
        = [SinkEffect.consoleLog req, SinkEffect.consoleError sinkErrorMessage] := by
  have hn : normaliseRequest req = Except.error sinkErrorMessage := by
    cases req with
    | str s =>
        have hc : sinkMethods.contains s = false := by
          simpa [isInvalidCommand, resolvedName] using h
        have hnm : s ∉ sinkMethods := by
          intro hmem
          exact Bool.noConfusion ((List.elem_eq_true_of_mem hmem).symm.trans hc)
        simp [normaliseRequest, hnm]
    | other => rfl
    | arr elems =>
        cases elems with
        | nil => rfl
        | cons hd tl =>
            cases hd with
            | str m =>
                have hc : sinkMethods.contains m = false := by
                  simpa [isInvalidCommand, resolvedName] using h
                have hnm : m ∉ sinkMethods := by
                  intro hmem
                  exact Bool.noConfusion ((List.elem_eq_true_of_mem hmem).symm.trans hc)
                simp [normaliseRequest, hnm]
            | arr xs => rfl
            | other => rfl
  refine ⟨hn, ?_⟩
  simp [processRequests, hn]

/-- Witness for C5 at the concrete inputs: the non-string non-array value
and a command with an unknown name. -/
theorem c5_invalid_command_rejected_witness :
    (normaliseRequest JsVal.other = Except.error sinkErrorMessage
      ∧ processRequests [JsVal.other]
          = [SinkEffect.consoleLog JsVal.other,
             SinkEffect.consoleError sinkErrorMessage])
    ∧ (normaliseRequest (JsVal.str "destroy") = Except.error sinkErrorMessage
      ∧ processRequests [JsVal.str "destroy"]
          = [SinkEffect.consoleLog (JsVal.str "destroy"),
             SinkEffect.consoleError sinkErrorMessage]) :=
  ⟨c5_invalid_command_rejected JsVal.other [] (by decide),
   c5_invalid_command_rejected (JsVal.str "destroy") [] (by decide)⟩

/-- Claim C2 counterexample: after the malformed command (a non-string,
non-array value) the valid command `"navigate"` that follows it in the
same stream is never dispatched — the whole effect list is the log of the
bad command and one `console.error`, with no router call at all, whereas
the claim requires the subsequent valid command to still be dispatched. -/
theorem c2_counterexample :
    processRequests [JsVal.other, JsVal.str "navigate"]
        = [SinkEffect.consoleLog JsVal.other,
           SinkEffect.consoleError sinkErrorMessage]
    ∧ SinkEffect.call (JsVal.str "navigate") []
        ∉ processRequests [JsVal.other, JsVal.str "navigate"] := by
  have h : processRequests [JsVal.other, JsVal.str "navigate"]
      = [SinkEffect.consoleLog JsVal.other,
         SinkEffect.consoleError sinkErrorMessage] := rfl
  refine ⟨h, ?_⟩
  rw [h]
  simp

/-- Claim C2 (amended): a malformed or unknown-name command is dropped and
a diagnostic error is reported via `console.error`, but the error
terminates the command subscription: no subsequent command of the stream
is processed. -/
theorem c2_bad_command_halts_sink (req : JsVal) (rest : List JsVal) (msg : String)
    (h : normaliseRequest req = Except.error msg) :
    processRequests (req :: rest)
        = [SinkEffect.consoleLog req, SinkEffect.consoleError msg] := by
  simp [processRequests, h]

/-- Witness for the amended C2: the malformed command `JsVal.other`
followed by a valid command that is never processed. -/
theorem c2_bad_command_halts_sink_witness :
    processRequests [JsVal.other, JsVal.str "navigate"]
        = [SinkEffect.consoleLog JsVal.other,
           SinkEffect.consoleError sinkErrorMessage] :=
  c2_bad_command_halts_sink JsVal.other [JsVal.str "navigate"] sinkErrorMessage rfl

/-- Claim C1 counterexample: after a TransitionError with payload E, the
very next TransitionSuccess maps `error$` back to null — the stream does
not keep reading E across subsequent non-error lifecycle events. -/
theorem c1_counterexample :
    (makeRouterDriver false true none (fun _ _ => none)).errorS.run
        [RouterEvent.transitionError none none "E",
         RouterEvent.transitionSuccess (some (RouterState.mk "home" [])) none]
      = [none, some "E", none]
    ∧ (none : Option ErrorPayload) ≠ some "E" := by
  exact ⟨rfl, by decide⟩

/-- Claim C1 (amended): `error$` emits null first, then maps every
lifecycle event to its error payload when it is a TransitionError and to
null otherwise — so any non-error event (a TransitionSuccess included)
resets the read value to null rather than keeping the last error. -/
theorem c1_error_stream (started autostart : Bool) (g : Option RouterState)
    (tp : Option RouterState → Option RouterState → Option String)
    (evts : List RouterEvent) :
    (makeRouterDriver started autostart g tp).errorS.run evts
      = none :: evts.map (fun e =>
          match e with
          | RouterEvent.transitionError _ _ err => some err
          | _ => none) := by
  simp only [makeRouterDriver, transitionS, Obs.map, Obs.startWith, List.map_map]
  congr 1
  apply List.map_congr_left
  intro e _
  cases e <;> rfl

/-- Claim C7 counterexample: after a TransitionStart with `toState = S`,
the very next TransitionSuccess maps `transitionRoute$` back to null — a
non-start lifecycle event does not leave the value unchanged. -/
theorem c7_counterexample :
    (makeRouterDriver false true none (fun _ _ => none)).transitionRouteS.run
        [RouterEvent.transitionStart (some (RouterState.mk "home" [])) none,
         RouterEvent.transitionSuccess (some (RouterState.mk "home" [])) none]
      = [none, some (RouterState.mk "home" []), none]
    ∧ (none : Option RouterState) ≠ some (RouterState.mk "home" []) := by
  exact ⟨rfl, by decide⟩

/-- Claim C7 (amended): `transitionRoute$` emits null first, then maps
every lifecycle event to its `toState` when it is a TransitionStart and to
null otherwise; it has no replay: being derived from the cold unshared
`transition$`, a subscription only sees events delivered after it (its
first value is always the `startWith` null, whatever happened before). -/
theorem c7_transition_route_stream (started autostart : Bool) (g : Option RouterState)
    (tp : Option RouterState → Option RouterState → Option String)
    (evts : List RouterEvent) :
    (makeRouterDriver started autostart g tp).transitionRouteS.run evts
      = none :: evts.map (fun e =>
          match e with
          | RouterEvent.transitionStart t _ => t
          | _ => none) := by
  simp only [makeRouterDriver, transitionS, Obs.map, Obs.startWith, List.map_map]
  congr 1
  apply List.map_congr_left
  intro e _
  cases e <;> rfl

/-- Claim C8 counterexample: `transitionError$` projects its events to
`{toState, fromState}` only — two error events that differ only in their
error payloads produce identical stream values, so the stream does not
additionally carry the error payload. -/
theorem c8_counterexample :
    (makeRouterDriver false true none (fun _ _ => none)).transitionErrorS.run
        [RouterEvent.transitionError none none "boom"]
      = (makeRouterDriver false true none (fun _ _ => none)).transitionErrorS.run
        [RouterEvent.transitionError none none "reset"]
    ∧ ("boom" : ErrorPayload) ≠ "reset" := by
  exact ⟨rfl, by decide⟩

/-- Claim C8 (amended): each of the six filtered streams passes exactly
the events of its own type tag; Start/Stop project to the bare type tag,
and all four Transition* streams — the TransitionError one included —
project to `{toState, fromState}`, with the error payload dropped. -/
theorem c8_filtered_streams (started autostart : Bool) (g : Option RouterState)
    (tp : Option RouterState → Option RouterState → Option String)
    (evts : List RouterEvent) :
    (makeRouterDriver started autostart g tp).startS.run evts
        = evts.filterMap (fun e =>
            match e with
            | RouterEvent.start => some "start"
            | _ => none)
    ∧ (makeRouterDriver started autostart g tp).stopS.run evts
        = evts.filterMap (fun e =>
            match e with
            | RouterEvent.stop => some "stop"
            | _ => none)
    ∧ (makeRouterDriver started autostart g tp).transitionStartS.run evts
        = evts.filterMap (fun e =>
            match e with
            | RouterEvent.transitionStart t f => some (Slate.mk t f)
            | _ => none)
    ∧ (makeRouterDriver started autostart g tp).transitionCancelS.run evts
        = evts.filterMap (fun e =>
            match e with
            | RouterEvent.transitionCancel t f => some (Slate.mk t f)
            | _ => none)
    ∧ (makeRouterDriver started autostart g tp).transitionSuccessS.run evts
        = evts.filterMap (fun e =>
            match e with
            | RouterEvent.transitionSuccess t f => some (Slate.mk t f)
            | _ => none)
    ∧ (makeRouterDriver started autostart g tp).transitionErrorS.run evts
        = evts.filterMap (fun e =>
            match e with
            | RouterEvent.transitionError t f _ => some (Slate.mk t f)
            | _ => none) := by
  refine ⟨?_, ?_, ?_, ?_, ?_, ?_⟩ <;>
  · simp only [makeRouterDriver, slice, sliceSlate, filterType, transitionS,
      Obs.map, Obs.filter]
    rw [filter_map_pluginEvent]
    congr 1
    funext e
    cases e <;> rfl

/-- Claim C6 counterexample: the driver is constructed while the router is
unstarted (`getState` returns null); before any subscription the router
successfully transitions to `home`, so the router state at the moment of
subscription is `home` — yet the subscriber first receives null, the value
`router.getState()` returned at construction: `startWith` evaluated its
argument when the driver was built, not at subscription. -/
theorem c6_counterexample :
    routerStateAfter none
        [RouterEvent.transitionSuccess (some (RouterState.mk "home" [])) none]
      = some (RouterState.mk "home" [])
    ∧ (makeRouterDriver false true none (fun _ _ => none)).routeS.run [] = [none]
    ∧ (none : Option RouterState) ≠ some (RouterState.mk "home" []) := by
  exact ⟨rfl, rfl, by decide⟩

/-- Claim C6 (amended): every subscriber to `route$` first receives the
router state captured when the driver was constructed (not the state at
the moment of subscription), and then the `toState` of each subsequent
TransitionSuccess with non-null `toState`, in arrival order. -/
theorem c6_route_stream (started autostart : Bool) (g : Option RouterState)
    (tp : Option RouterState → Option RouterState → Option String)
    (evts : List RouterEvent) :
    (makeRouterDriver started autostart g tp).routeS.run evts
      = g :: evts.filterMap (fun e =>
          match e with
          | RouterEvent.transitionSuccess (some t) _ => some (some t)
          | _ => none) := by
  simp only [makeRouterDriver, Obs.map, Obs.startWith]
  rw [routeStateS_run, List.map_filterMap]
  congr 1
  apply List.filterMap_congr
  intro e _
  cases e with
  | start => rfl
  | stop => rfl
  | transitionStart t f => rfl
  | transitionSuccess t f => cases t <;> rfl
  | transitionError t f err => rfl
  | transitionCancel t f => rfl

/-- Claim C3 counterexample: a successful transition whose computed
intersection is null (`transitionPath` finds no common ancestor) makes
`routeNode$("a")` emit nothing at all — the filter compares with strict
equality, so a null intersection matches no node, where the claim requires
every routeNode stream to emit. -/
theorem c3_counterexample :
    ((makeRouterDriver false true none (fun _ _ => none)).routeNodeS "a").run
        [RouterEvent.transitionSuccess (some (RouterState.mk "home" [])) none]
      = []
    ∧ some (RouterState.mk "home" []) ∉
        ((makeRouterDriver false true none (fun _ _ => none)).routeNodeS "a").run
          [RouterEvent.transitionSuccess (some (RouterState.mk "home" [])) none] := by
  have h : ((makeRouterDriver false true none (fun _ _ => none)).routeNodeS "a").run
        [RouterEvent.transitionSuccess (some (RouterState.mk "home" [])) none]
      = [] := rfl
  exact ⟨h, by rw [h]; simp⟩

/-- Claim C3 (amended): `routeNode$(n)` emits exactly for the successful
transitions (with non-null `toState`) whose computed intersection is
strictly equal to `n` — an ancestor intersection or a null intersection
matches no node — preceded by the construction-time router state when that
state is non-null, and never emitting null. -/
theorem c3_route_node_stream (started autostart : Bool) (g : Option RouterState)
    (tp : Option RouterState → Option RouterState → Option String)
    (node : String) (evts : List RouterEvent) :
    ((makeRouterDriver started autostart g tp).routeNodeS node).run evts
      = (g :: evts.filterMap (fun e =>
          match e with
          | RouterEvent.transitionSuccess (some t) f =>
              if tp (some t) f = some node then some (some t) else none
          | _ => none)).filter (fun r => r.isSome) := by
  simp only [makeRouterDriver, Obs.map, Obs.filter, Obs.startWith]
  rw [routeStateS_run, List.filter_filterMap, List.map_filterMap]
  congr 2
  apply List.filterMap_congr
  intro e _
  cases e with
  | start => rfl
  | stop => rfl
  | transitionStart t f => rfl
  | transitionSuccess t f =>
      cases t with
      | none => rfl
      | some t =>
          by_cases h : tp (some t) f = some node <;>
            simp [Option.filter, h]
  | transitionError t f err => rfl
  | transitionCancel t f => rfl

end Router5Driver
